import Mathlib

/-!
# Node identity and default configuration derivation (`repo/config/init.go`)

A shallow embedding of `Init`, `identityConfig` and `DefaultDatastoreConfig`
from `repo/config/init.go`, together with the standard-library text encoders
they call (`encoding/base64`, `encoding/base32`, `strings.ToLower`,
`time.Duration.String`).

Conventions of the embedding:

* a Go `[]byte` is a `List Byte`, a byte being a natural number below `2^8`;
* a Go `string` is a Lean `String`; every string built here is ASCII, so
  characters and bytes coincide;
* a Go `error` is the text of its message; the `(T, error)` result of
  `identityConfig` and `Init` is a pair whose second component is `none` for
  `nil`;
* external capabilities (key generation, key serialisation, hashing, peer
  identifiers, the bootstrap list) are fields of `Env`, one `Env` per run; a
  capability whose error `init.go` checks at once returns an `Except`,
  `asn1.Marshal`, whose error it does not read, returns both results;
* side effects (writes to the `io.Writer`, calls of the key generators) are
  recorded, in order, in a trace of `Event`s that is threaded through.
-/

namespace IpfsConfig

/-! ## Bytes and errors -/

/-- A Go `byte`: an unsigned 8-bit value. -/
abbrev Byte := Fin 256

/-- The Go conversion `byte(n)`: truncation to the low 8 bits. -/
def toByte (n : Nat) : Byte := ⟨n % 256, Nat.mod_lt _ (by decide)⟩

/-- A Go `error` value, represented by its message. -/
abbrev GoError := String

/-! ## `encoding/base64`, `StdEncoding` -/

/-- The alphabet of `base64.StdEncoding` (`encodeStd`). -/
def encodeStd : List Char :=
  "ABCDEFGHIJKLMNOPQRSTUVWXYZabcdefghijklmnopqrstuvwxyz0123456789+/".data

/-- The table lookup `enc.encode[i]` of `base64.StdEncoding`. -/
def b64char (i : Nat) : Char := encodeStd.getD i '='

/-- The loop of `(*Encoding).Encode` for `base64.StdEncoding`: every full group
of three source bytes gives four characters, a final group of one or two bytes
gives two or three characters followed by `=` padding. -/
def base64Encode : List Byte → List Char
  | a :: b :: c :: rest =>
    let val := a.val <<< 16 ||| b.val <<< 8 ||| c.val
    b64char (val >>> 18 &&& 0x3F) :: b64char (val >>> 12 &&& 0x3F) ::
      b64char (val >>> 6 &&& 0x3F) :: b64char (val &&& 0x3F) :: base64Encode rest
  | [a, b] =>
    let val := a.val <<< 16 ||| b.val <<< 8
    [b64char (val >>> 18 &&& 0x3F), b64char (val >>> 12 &&& 0x3F),
      b64char (val >>> 6 &&& 0x3F), '=']
  | [a] =>
    let val := a.val <<< 16
    [b64char (val >>> 18 &&& 0x3F), b64char (val >>> 12 &&& 0x3F), '=', '=']
  | [] => []

/-- The call `base64.StdEncoding.EncodeToString(src)`. -/
def base64EncodeToString (src : List Byte) : String := String.mk (base64Encode src)

/-- The table `enc.decodeMap` of `base64.StdEncoding`: the position of an
alphabet character, `0xFF` for every other character. -/
def decodeMap (c : Char) : Nat :=
  if encodeStd.indexOf c < 64 then encodeStd.indexOf c else 0xFF

/-- The quantum loop of `(*Encoding).DecodeString` for `base64.StdEncoding`
(padded, not strict), on input from which line breaks have been removed: four
alphabet characters give three bytes; a quantum ending in `=` or `==` gives two
or one byte and must be the last one; anything else is corrupt input. -/
def decodeQuanta : List Char → Except GoError (List Byte)
  | [] => .ok []
  | c0 :: c1 :: c2 :: c3 :: rest =>
    let val := decodeMap c0 <<< 18 ||| decodeMap c1 <<< 12 |||
      (if decodeMap c2 = 0xFF then 0 else decodeMap c2) <<< 6 |||
      (if decodeMap c3 = 0xFF then 0 else decodeMap c3)
    if decodeMap c0 = 0xFF ∨ decodeMap c1 = 0xFF then
      .error "illegal base64 data"
    else if decodeMap c2 ≠ 0xFF ∧ decodeMap c3 ≠ 0xFF then
      match decodeQuanta rest with
      | .ok bs => .ok (toByte (val >>> 16) :: toByte (val >>> 8) :: toByte val :: bs)
      | .error e => .error e
    else if decodeMap c2 ≠ 0xFF ∧ c3 = '=' ∧ rest = [] then
      .ok [toByte (val >>> 16), toByte (val >>> 8)]
    else if c2 = '=' ∧ c3 = '=' ∧ rest = [] then
      .ok [toByte (val >>> 16)]
    else
      .error "illegal base64 data"
  | _ => .error "illegal base64 data"

/-- The call `base64.StdEncoding.DecodeString(s)`: carriage returns and line
feeds are skipped, the rest is decoded quantum by quantum. -/
def base64DecodeString (s : String) : Except GoError (List Byte) :=
  decodeQuanta (s.data.filter (fun c => c != '\n' && c != '\r'))

/-! ## `encoding/base32`, `StdEncoding` -/

/-- The alphabet of `base32.StdEncoding` (`encodeStd`). -/
def encodeStd32 : List Char := "ABCDEFGHIJKLMNOPQRSTUVWXYZ234567".data

/-- The table lookup `enc.encode[b&31]` of `base32.StdEncoding`. -/
def b32char (b : Nat) : Char := encodeStd32.getD (b &&& 31) '='

/-- The eight 5-bit blocks `b[0..7]` that `(*Encoding).Encode` of
`encoding/base32` unpacks from a quantum of source bytes. A byte beyond the end
of a short final quantum is passed as `0`: the `switch` then leaves its
contribution to `b` at the zero value. -/
def quantum32 (s0 s1 s2 s3 s4 : Nat) : List Nat :=
  [ s0 >>> 3,
    (s1 >>> 6 &&& 0x1F) ||| (s0 <<< 2 &&& 0x1F),
    s1 >>> 1 &&& 0x1F,
    (s2 >>> 4 &&& 0x1F) ||| (s1 <<< 4 &&& 0x1F),
    (s3 >>> 7) ||| (s2 <<< 1 &&& 0x1F),
    s3 >>> 2 &&& 0x1F,
    (s4 >>> 5) ||| (s3 <<< 3 &&& 0x1F),
    s4 &&& 0x1F ]

/-- The loop of `(*Encoding).Encode` for `base32.StdEncoding`: every full
quantum of five source bytes gives eight characters; a final quantum of one to
four bytes gives two, four, five or seven characters and is padded with `=` to
eight. -/
def base32Encode : List Byte → List Char
  | s0 :: s1 :: s2 :: s3 :: s4 :: rest =>
    (quantum32 s0.val s1.val s2.val s3.val s4.val).map b32char ++ base32Encode rest
  | [s0, s1, s2, s3] =>
    ((quantum32 s0.val s1.val s2.val s3.val 0).take 7).map b32char ++ ['=']
  | [s0, s1, s2] =>
    ((quantum32 s0.val s1.val s2.val 0 0).take 5).map b32char ++ ['=', '=', '=']
  | [s0, s1] =>
    ((quantum32 s0.val s1.val 0 0 0).take 4).map b32char ++ ['=', '=', '=', '=']
  | [s0] =>
    ((quantum32 s0.val 0 0 0 0).take 2).map b32char ++ ['=', '=', '=', '=', '=', '=']
  | [] => []

/-- The call `base32.StdEncoding.EncodeToString(src)`. -/
def base32EncodeToString (src : List Byte) : String := String.mk (base32Encode src)

/-! ## `strings.ToLower` -/

/-- The call `strings.ToLower(s)` on ASCII text: the letters `A` to `Z` are
moved to `a` to `z`, every other character is kept. -/
def stringsToLower (s : String) : String := String.mk (s.data.map Char.toLower)

/-! ## `time.Duration.String` -/

/-- The helper `fmtFrac` of package `time`: the fraction of `v / 10^prec`
without trailing zeros (with its leading `.` when it is not zero), and the
value `v / 10^prec`. The digits are produced from the least significant one. -/
def fmtFrac : Nat → Nat → Bool → List Char → List Char × Nat
  | 0, v, pr, acc => (if pr then '.' :: acc else acc, v)
  | prec + 1, v, pr, acc =>
    let pr1 := pr || v % 10 != 0
    fmtFrac prec (v / 10) pr1 (if pr1 then Nat.digitChar (v % 10) :: acc else acc)

/-- The helper `fmtInt` of package `time`: the decimal digits of `v`. -/
def fmtInt (v : Nat) : List Char := (Nat.repr v).data

/-- The nanoseconds in one second, `time.Second`. -/
def Second : Int := 1000000000

/-- The method `time.Duration.String` for a duration of `d` nanoseconds:
below one second the unit is `ns`, `µs` or `ms`; from one second on the form
is hours, minutes, seconds, with leading zero units left out. -/
def durationString (d : Int) : String :=
  let u := d.natAbs
  let body : List Char :=
    if u < 1000000000 then
      if u = 0 then ['0', 's']
      else if u < 1000 then
        let r := fmtFrac 0 u false ['n', 's']
        fmtInt r.2 ++ r.1
      else if u < 1000000 then
        let r := fmtFrac 3 u false ['µ', 's']
        fmtInt r.2 ++ r.1
      else
        let r := fmtFrac 6 u false ['m', 's']
        fmtInt r.2 ++ r.1
    else
      let r := fmtFrac 9 u false ['s']
      let secs := fmtInt (r.2 % 60) ++ r.1
      let u1 := r.2 / 60
      if u1 > 0 then
        let mins := fmtInt (u1 % 60) ++ ('m' :: secs)
        let u2 := u1 / 60
        if u2 > 0 then fmtInt u2 ++ ('h' :: mins) else mins
      else secs
  String.mk (if d < 0 then '-' :: body else body)

/-! ## The configuration record

The declarations of `Config` and of its parts live in other files of package
`config`; the structures below carry the fields that `init.go` names, with
their Go types (`int`, `int64` as `Int`; `[]string` as `List String`;
`map[string]interface{}` and `map[string][]string` as association lists in
source order). -/

/-- The type `Identity`: the peer identifier and the stored private key. -/
structure Identity where
  PeerID : String
  PrivKey : String
deriving DecidableEq, Repr

/-- The type `Addresses`. -/
structure Addresses where
  Swarm : List String
  Announce : List String
  NoAnnounce : List String
  API : String
  Gateway : String
deriving DecidableEq, Repr

/-- A value stored in the `map[string]interface{}` of `Datastore.Spec`. -/
inductive SpecValue where
  | str : String → SpecValue
  | bool : Bool → SpecValue
  | list : List SpecValue → SpecValue
  | obj : List (String × SpecValue) → SpecValue

/-- The type `Datastore`. -/
structure Datastore where
  StorageMax : String
  StorageGCWatermark : Int
  GCPeriod : String
  BloomFilterSize : Int
  Spec : List (String × SpecValue)

/-- The type `MDNS`. -/
structure MDNS where
  Enabled : Bool
  Interval : Int
deriving DecidableEq, Repr

/-- The type `Discovery`. -/
structure Discovery where
  MDNS : MDNS
deriving DecidableEq, Repr

/-- The type `Mounts`. -/
structure Mounts where
  IPFS : String
  IPNS : String
deriving DecidableEq, Repr

/-- The type `Ipns`. -/
structure Ipns where
  ResolveCacheSize : Int
deriving DecidableEq, Repr

/-- The type `Gateway`. -/
structure Gateway where
  RootRedirect : String
  Writable : Bool
  PathPrefixes : List String
  HTTPHeaders : List (String × List String)
deriving DecidableEq, Repr

/-- The type `Reprovider`. -/
structure Reprovider where
  Interval : String
  Strategy : String
deriving DecidableEq, Repr

/-- The type `ConnMgr`. -/
structure ConnMgr where
  LowWater : Int
  HighWater : Int
  GracePeriod : String
  /-- The Go field `Type`, a reserved word here. -/
  Type_ : String
deriving DecidableEq, Repr

/-- The type `SwarmConfig`. -/
structure SwarmConfig where
  ConnMgr : ConnMgr
deriving DecidableEq, Repr

/-- The type `Config`, with the fields that `Init` sets. -/
structure Config where
  Addresses : Addresses
  Datastore : Datastore
  Bootstrap : List String
  Identity : Identity
  OnionKeys : String
  Discovery : Discovery
  Mounts : Mounts
  Ipns : Ipns
  Gateway : Gateway
  Reprovider : Reprovider
  Swarm : SwarmConfig

/-! ## Constants and `DefaultDatastoreConfig` -/

/-- The constant `DefaultConnMgrHighWater`. -/
def DefaultConnMgrHighWater : Int := 900

/-- The constant `DefaultConnMgrLowWater`. -/
def DefaultConnMgrLowWater : Int := 600

/-- The constant `DefaultConnMgrGracePeriod`, in nanoseconds. -/
def DefaultConnMgrGracePeriod : Int := Second * 20

/-- The function `DefaultDatastoreConfig`. -/
def DefaultDatastoreConfig : Datastore :=
  { StorageMax := "10GB"
    StorageGCWatermark := 90
    GCPeriod := "1h"
    BloomFilterSize := 0
    Spec :=
      [ ("type", .str "mount"),
        ("mounts", .list
          [ .obj
              [ ("mountpoint", .str "/blocks"),
                ("type", .str "measure"),
                ("prefix", .str "flatfs.datastore"),
                ("child", .obj
                  [ ("type", .str "flatfs"),
                    ("path", .str "blocks"),
                    ("sync", .bool true),
                    ("shardFunc", .str "/repo/flatfs/shard/v1/next-to-last/2") ]) ],
            .obj
              [ ("mountpoint", .str "/"),
                ("type", .str "measure"),
                ("prefix", .str "leveldb.datastore"),
                ("child", .obj
                  [ ("type", .str "levelds"),
                    ("path", .str "datastore"),
                    ("compression", .str "none") ]) ] ]) ] }

/-! ## The run environment and the trace of effects -/

/-- An observable effect of a run, in the order of occurrence. -/
inductive Event where
  /-- A call `fmt.Fprintf(out, ...)` that writes `text` to the output sink. -/
  | write (text : String)
  /-- A call `ci.GenerateKeyPair(ci.RSA, nbits)`. -/
  | generateKeyPair (nbits : Int)
  /-- A call `rsa.GenerateKey(rand.Reader, bits)`. -/
  | rsaGenerateKey (bits : Int)
deriving DecidableEq, Repr

/-- The texts written to the output sink, in order. -/
def written : List Event → List String
  | [] => []
  | .write text :: rest => text :: written rest
  | _ :: rest => written rest

/-- The number of calls `ci.GenerateKeyPair(ci.RSA, nbits)` in a trace. -/
def keygenCalls : List Event → Nat
  | [] => 0
  | .generateKeyPair _ :: rest => keygenCalls rest + 1
  | _ :: rest => keygenCalls rest

/-- The number of calls `rsa.GenerateKey(rand.Reader, bits)` in a trace. -/
def rsaKeygenCalls : List Event → Nat
  | [] => 0
  | .rsaGenerateKey _ :: rest => rsaKeygenCalls rest + 1
  | _ :: rest => rsaKeygenCalls rest

/-- The capabilities that `init.go` consumes, as they answer in one run.
`SK`, `PK` are the private and public key of `go-libp2p-crypto`, `ID` is
`peer.ID`, `RSK`, `RPK` are `rsa.PrivateKey` and `rsa.PublicKey`, `BP` is a
bootstrap peer of package `config`. -/
structure Env (SK PK ID RSK RPK BP : Type) where
  /-- The call `ci.GenerateKeyPair(ci.RSA, nbits)`. -/
  GenerateKeyPair : Int → Except GoError (SK × PK)
  /-- The method `sk.Bytes()`. -/
  Bytes : SK → Except GoError (List Byte)
  /-- The call `peer.IDFromPublicKey(pk)`. -/
  IDFromPublicKey : PK → Except GoError ID
  /-- The method `id.Pretty()`. -/
  Pretty : ID → String
  /-- The call `DefaultBootstrapPeers()`. -/
  DefaultBootstrapPeers : Except GoError (List BP)
  /-- The call `BootstrapPeerStrings(bootstrapPeers)`. -/
  BootstrapPeerStrings : List BP → List String
  /-- The call `rsa.GenerateKey(rand.Reader, bits)`. -/
  rsaGenerateKey : Int → Except GoError RSK
  /-- The field `sk.PublicKey`. -/
  PublicKey : RSK → RPK
  /-- The call `x509.MarshalPKCS1PrivateKey(sk)`. -/
  MarshalPKCS1PrivateKey : RSK → List Byte
  /-- The call `asn1.Marshal(pk)`: both results, the bytes and the error. -/
  asn1Marshal : RPK → List Byte × Option GoError
  /-- The call `sha1.Sum(data)`, of Go type `[20]byte`. -/
  sha1Sum : List Byte → { d : List Byte // d.length = 20 }

section Run

variable {SK PK ID RSK RPK BP : Type}

/-! ## `identityConfig` and `Init` -/

/-- The function `identityConfig(out, nbits)`. The result is the Go pair
`(Identity, error)` and the trace extended by the effects of the call. -/
def identityConfig (env : Env SK PK ID RSK RPK BP) (nbits : Int) (tr : List Event) :
    (Identity × Option GoError) × List Event :=
  let ident : Identity := { PeerID := "", PrivKey := "" }
  if nbits < 1024 then
    ((ident, some "Bitsize less than 1024 is considered unsafe."), tr)
  else
    let tr := tr ++ [.write ("generating " ++ toString nbits ++ "-bit RSA keypair...")]
    let tr := tr ++ [.generateKeyPair nbits]
    match env.GenerateKeyPair nbits with
    | .error err => ((ident, some err), tr)
    | .ok (sk, pk) =>
      let tr := tr ++ [.write "done\n"]
      match env.Bytes sk with
      | .error err => ((ident, some err), tr)
      | .ok skbytes =>
        let ident := { ident with PrivKey := base64EncodeToString skbytes }
        match env.IDFromPublicKey pk with
        | .error err => ((ident, some err), tr)
        | .ok id =>
          let ident := { ident with PeerID := env.Pretty id }
          let tr := tr ++ [.write ("peer identity: " ++ ident.PeerID ++ "\n")]
          ((ident, none), tr)

/-- The function `Init(out, nBitsForKeypair)`. The result is the Go pair
`(*Config, error)`, `none` standing for `nil`, and the trace extended by the
effects of the call. -/
def Init (env : Env SK PK ID RSK RPK BP) (nBitsForKeypair : Int) (tr : List Event) :
    (Option Config × Option GoError) × List Event :=
  match identityConfig env nBitsForKeypair tr with
  | ((_, some err), tr) => ((none, some err), tr)
  | ((identity, none), tr) =>
    match env.DefaultBootstrapPeers with
    | .error err => ((none, some err), tr)
    | .ok bootstrapPeers =>
      let datastore := DefaultDatastoreConfig
      let tr := tr ++ [.rsaGenerateKey 1024]
      match env.rsaGenerateKey 1024 with
      | .error err => ((none, some err), tr)
      | .ok sk =>
        let pk := env.PublicKey sk
        let skbytes := env.MarshalPKCS1PrivateKey sk
        -- the error result of asn1.Marshal is assigned to err and never read
        let pkbytes := (env.asn1Marshal pk).1
        let pksha1 := (env.sha1Sum pkbytes).val
        let length := pksha1.length / 2
        let pkhsha1 := pksha1.take length
        let onionAddress := stringsToLower (base32EncodeToString pkhsha1)
        let onionSwarmAddress := "/onion/" ++ onionAddress ++ ":4003"
        let onionPrivateKey := base64EncodeToString skbytes
        let conf : Config :=
          { Addresses :=
              { Swarm := [onionSwarmAddress, "/ip4/0.0.0.0/tcp/4001", "/ip6/::/tcp/4001"]
                Announce := []
                NoAnnounce := []
                API := "/ip4/127.0.0.1/tcp/5001"
                Gateway := "/ip4/127.0.0.1/tcp/8080" }
            Datastore := datastore
            Bootstrap := env.BootstrapPeerStrings bootstrapPeers
            Identity := identity
            OnionKeys := onionAddress ++ onionPrivateKey
            Discovery := { MDNS := { Enabled := true, Interval := 10 } }
            Mounts := { IPFS := "/ipfs", IPNS := "/ipns" }
            Ipns := { ResolveCacheSize := 128 }
            Gateway :=
              { RootRedirect := ""
                Writable := false
                PathPrefixes := []
                HTTPHeaders :=
                  [ ("Access-Control-Allow-Origin", ["*"]),
                    ("Access-Control-Allow-Methods", ["GET"]),
                    ("Access-Control-Allow-Headers", ["X-Requested-With", "Range"]) ] }
            Reprovider := { Interval := "12h", Strategy := "all" }
            Swarm :=
              { ConnMgr :=
                  { LowWater := DefaultConnMgrLowWater
                    HighWater := DefaultConnMgrHighWater
                    GracePeriod := durationString DefaultConnMgrGracePeriod
                    Type_ := "basic" } } }
        ((some conf, none), tr)

/-! ## Names for the values that the statements speak about -/

/-- The local variable `onionAddress` of `Init` (lines 42 to 45) as a function
of the serialized public key `pkbytes`: the address fingerprint. -/
def onionAddress (env : Env SK PK ID RSK RPK BP) (pkbytes : List Byte) : String :=
  let pksha1 := (env.sha1Sum pkbytes).val
  let length := pksha1.length / 2
  let pkhsha1 := pksha1.take length
  stringsToLower (base32EncodeToString pkhsha1)

/-- The address fingerprint of a run of `Init` whose second keypair is `sk`. -/
def fingerprintOf (env : Env SK PK ID RSK RPK BP) (sk : RSK) : String :=
  onionAddress env (env.asn1Marshal (env.PublicKey sk)).1

/-- The local variable `onionPrivateKey` of `Init` (lines 40 and 47) in a run
whose second keypair is `sk`. -/
def onionPrivateKeyOf (env : Env SK PK ID RSK RPK BP) (sk : RSK) : String :=
  base64EncodeToString (env.MarshalPKCS1PrivateKey sk)

end Run

/-- The struct literal `&Config{...}` of `Init` (lines 49 to 107), with the
swarm address of line 46, as a function of the local variables it reads. -/
def confOf (identity : Identity) (bootstrap : List String) (datastore : Datastore)
    (onionAddress onionPrivateKey : String) : Config :=
  { Addresses :=
      { Swarm := ["/onion/" ++ onionAddress ++ ":4003", "/ip4/0.0.0.0/tcp/4001",
          "/ip6/::/tcp/4001"]
        Announce := []
        NoAnnounce := []
        API := "/ip4/127.0.0.1/tcp/5001"
        Gateway := "/ip4/127.0.0.1/tcp/8080" }
    Datastore := datastore
    Bootstrap := bootstrap
    Identity := identity
    OnionKeys := onionAddress ++ onionPrivateKey
    Discovery := { MDNS := { Enabled := true, Interval := 10 } }
    Mounts := { IPFS := "/ipfs", IPNS := "/ipns" }
    Ipns := { ResolveCacheSize := 128 }
    Gateway :=
      { RootRedirect := ""
        Writable := false
        PathPrefixes := []
        HTTPHeaders :=
          [ ("Access-Control-Allow-Origin", ["*"]),
            ("Access-Control-Allow-Methods", ["GET"]),
            ("Access-Control-Allow-Headers", ["X-Requested-With", "Range"]) ] }
    Reprovider := { Interval := "12h", Strategy := "all" }
    Swarm :=
      { ConnMgr :=
          { LowWater := DefaultConnMgrLowWater
            HighWater := DefaultConnMgrHighWater
            GracePeriod := durationString DefaultConnMgrGracePeriod
            Type_ := "basic" } } }

/-- The lowercase form of the base-32 alphabet: `a` to `z` and `2` to `7`. -/
def lowerBase32 : List Char := "abcdefghijklmnopqrstuvwxyz234567".data

/-- The entries of the `"mounts"` list of a datastore spec. -/
def mountsOf (ds : Datastore) : List (List (String × SpecValue)) :=
  match ds.Spec.lookup "mounts" with
  | some (.list ms) => ms.filterMap fun m => match m with
    | .obj fields => some fields
    | _ => none
  | _ => []

/-- The string stored under `key` in one entry of a datastore spec. -/
def strField (key : String) (fields : List (String × SpecValue)) : Option String :=
  match fields.lookup key with
  | some (.str s) => some s
  | _ => none

/-! ## Sample runs -/

/-- A run in which every capability succeeds. -/
def okEnv : Env Nat Nat Nat Nat Nat String :=
  { GenerateKeyPair := fun _ => .ok (11, 12)
    Bytes := fun _ => .ok [toByte 1, toByte 2, toByte 3, toByte 4]
    IDFromPublicKey := fun pk => .ok pk
    Pretty := fun _ => "QmSample"
    DefaultBootstrapPeers := .ok ["/ip4/104.131.131.82/tcp/4001/ipfs/QmSample"]
    BootstrapPeerStrings := fun peers => peers
    rsaGenerateKey := fun _ => .ok 21
    PublicKey := fun _ => 22
    MarshalPKCS1PrivateKey := fun _ => [toByte 5, toByte 6, toByte 7, toByte 8, toByte 9]
    asn1Marshal := fun _ => ([toByte 48, toByte 3], none)
    sha1Sum := fun _ => ⟨List.replicate 20 (toByte 171), rfl⟩ }

/-- A run in which `ci.GenerateKeyPair` fails. -/
def keygenFailEnv : Env Nat Nat Nat Nat Nat String :=
  { okEnv with GenerateKeyPair := fun _ => .error "keygen failed" }

/-- A run in which `DefaultBootstrapPeers` fails. -/
def bootstrapFailEnv : Env Nat Nat Nat Nat Nat String :=
  { okEnv with DefaultBootstrapPeers := .error "failed to parse bootstrap peers" }

/-- A run in which `rsa.GenerateKey` fails. -/
def rsaFailEnv : Env Nat Nat Nat Nat Nat String :=
  { okEnv with rsaGenerateKey := fun _ => .error "rsa: key generation failed" }

/-- The identity that the run `okEnv` derives. -/
def okIdentity : Identity := { PeerID := "QmSample", PrivKey := "AQIDBA==" }

/-- The record that `Init` returns in the run `okEnv`. -/
def okConf : Config :=
  confOf okIdentity ["/ip4/104.131.131.82/tcp/4001/ipfs/QmSample"] DefaultDatastoreConfig
    "vov2xk5lvov2xk5l" "BQYHCAk="

/-- The trace of `Init okEnv 1024` started on an empty trace. -/
def okTrace : List Event :=
  [.write "generating 1024-bit RSA keypair...", .generateKeyPair 1024, .write "done\n",
    .write "peer identity: QmSample\n", .rsaGenerateKey 1024]

/-- A second run in which every capability succeeds: other keys and another
public-key encoding than in `okEnv`, the same serialized private keys, peer
identifier text, digest and bootstrap list. -/
def okEnv2 : Env Nat Nat Nat Nat Nat String :=
  { okEnv with
    GenerateKeyPair := fun _ => .ok (31, 32)
    rsaGenerateKey := fun _ => .ok 41
    asn1Marshal := fun _ => ([toByte 48, toByte 129, toByte 137], none) }


/-! ## Lemmas on the base-64 codec -/

theorem b64char_decodeMap_fin : ∀ i : Fin 64, decodeMap (b64char i.val) = i.val := by decide

theorem b64char_ne_fin : ∀ i : Fin 64,
    b64char i.val ≠ '=' ∧ b64char i.val ≠ '\n' ∧ b64char i.val ≠ '\r' := by decide

theorem decodeMap_b64char {i : Nat} (h : i < 64) : decodeMap (b64char i) = i :=
  b64char_decodeMap_fin ⟨i, h⟩

theorem b64char_ne {i : Nat} (h : i < 64) :
    b64char i ≠ '=' ∧ b64char i ≠ '\n' ∧ b64char i ≠ '\r' :=
  b64char_ne_fin ⟨i, h⟩

theorem decodeMap_pad : decodeMap '=' = 0xFF := by decide

/-- A left shift joined by `|||` to a value below the shift is a sum. -/
theorem shl_or_eq_add (x y k : Nat) (h : y < 2 ^ k) : x <<< k ||| y = x * 2 ^ k + y := by
  rw [Nat.shiftLeft_eq, Nat.mul_comm, ← Nat.mul_add_lt_is_or h]

theorem and_63 (x : Nat) : x &&& 0x3F = x % 64 := Nat.and_pow_two_sub_one_eq_mod _ 6

theorem val3 (a b c : Nat) (hb : b < 256) (hc : c < 256) :
    a <<< 16 ||| b <<< 8 ||| c = a * 65536 + b * 256 + c := by
  rw [Nat.or_assoc, shl_or_eq_add b c 8 (by omega), shl_or_eq_add a _ 16 (by omega)]
  omega

theorem val2 (a b : Nat) (hb : b < 256) :
    a <<< 16 ||| b <<< 8 = a * 65536 + b * 256 := by
  have := val3 a b 0 hb (by omega)
  simpa using this

theorem val1 (a : Nat) : a <<< 16 = a * 65536 := by
  rw [Nat.shiftLeft_eq]

theorem dval (d0 d1 d2 d3 : Nat) (h1 : d1 < 64) (h2 : d2 < 64) (h3 : d3 < 64) :
    d0 <<< 18 ||| d1 <<< 12 ||| d2 <<< 6 ||| d3 = d0 * 262144 + d1 * 4096 + d2 * 64 + d3 := by
  rw [Nat.or_assoc, Nat.or_assoc, shl_or_eq_add d2 d3 6 (by omega),
    shl_or_eq_add d1 _ 12 (by omega), shl_or_eq_add d0 _ 18 (by omega)]
  omega



theorem decodeQuanta_full (i0 i1 i2 i3 : Nat) (h0 : i0 < 64) (h1 : i1 < 64) (h2 : i2 < 64)
    (h3 : i3 < 64) (rest : List Char) :
    decodeQuanta (b64char i0 :: b64char i1 :: b64char i2 :: b64char i3 :: rest) =
      match decodeQuanta rest with
      | .ok bs => .ok (toByte ((i0 * 262144 + i1 * 4096 + i2 * 64 + i3) / 2 ^ 16) ::
          toByte ((i0 * 262144 + i1 * 4096 + i2 * 64 + i3) / 2 ^ 8) ::
          toByte (i0 * 262144 + i1 * 4096 + i2 * 64 + i3) :: bs)
      | .error e => .error e := by
  have e0 : ¬ (i0 = 255) := by omega
  have e1 : ¬ (i1 = 255) := by omega
  have e2 : ¬ (i2 = 255) := by omega
  have e3 : ¬ (i3 = 255) := by omega
  rw [decodeQuanta]
  rw [decodeMap_b64char h0, decodeMap_b64char h1, decodeMap_b64char h2,
    decodeMap_b64char h3, if_neg (by omega), if_pos ⟨e2, e3⟩, if_neg e2, if_neg e3,
    dval i0 i1 i2 i3 h1 h2 h3, Nat.shiftRight_eq_div_pow, Nat.shiftRight_eq_div_pow]

theorem decodeQuanta_two (i0 i1 i2 : Nat) (h0 : i0 < 64) (h1 : i1 < 64) (h2 : i2 < 64) :
    decodeQuanta [b64char i0, b64char i1, b64char i2, '='] =
      .ok [toByte ((i0 * 262144 + i1 * 4096 + i2 * 64 + 0) / 2 ^ 16),
        toByte ((i0 * 262144 + i1 * 4096 + i2 * 64 + 0) / 2 ^ 8)] := by
  have e2 : ¬ (i2 = 255) := by omega
  rw [decodeQuanta]
  rw [decodeMap_b64char h0, decodeMap_b64char h1, decodeMap_b64char h2,
    decodeMap_pad, if_neg (by omega), if_neg (by simp), if_pos ⟨e2, rfl, rfl⟩, if_neg e2,
    if_pos rfl, dval i0 i1 i2 0 h1 h2 (by omega),
    Nat.shiftRight_eq_div_pow, Nat.shiftRight_eq_div_pow]

theorem decodeQuanta_one (i0 i1 : Nat) (h0 : i0 < 64) (h1 : i1 < 64) :
    decodeQuanta [b64char i0, b64char i1, '=', '='] =
      .ok [toByte ((i0 * 262144 + i1 * 4096 + 0 * 64 + 0) / 2 ^ 16)] := by
  rw [decodeQuanta]
  rw [decodeMap_b64char h0, decodeMap_b64char h1,
    decodeMap_pad, if_neg (by omega), if_neg (by simp), if_neg (by simp),
    if_pos ⟨rfl, rfl, rfl⟩,
    if_pos rfl, dval i0 i1 0 0 h1 (by omega) (by omega),
    Nat.shiftRight_eq_div_pow]

theorem decodeQuanta_base64Encode (bs : List Byte) : decodeQuanta (base64Encode bs) = .ok bs := by
  induction bs using base64Encode.induct with
  | case1 a b c rest ih =>
    rw [base64Encode]
    simp only [and_63, Nat.shiftRight_eq_div_pow, val3 a.val b.val c.val b.isLt c.isLt]
    rw [decodeQuanta_full _ _ _ _ (Nat.mod_lt _ (by decide)) (Nat.mod_lt _ (by decide))
      (Nat.mod_lt _ (by decide)) (Nat.mod_lt _ (by decide)), ih]
    have ha := a.isLt
    have hb := b.isLt
    have hc := c.isLt
    have ea : toByte (((a.val * 65536 + b.val * 256 + c.val) / 2 ^ 18 % 64 * 262144 +
      (a.val * 65536 + b.val * 256 + c.val) / 2 ^ 12 % 64 * 4096 +
      (a.val * 65536 + b.val * 256 + c.val) / 2 ^ 6 % 64 * 64 +
      (a.val * 65536 + b.val * 256 + c.val) % 64) / 2 ^ 16) = a := by
      apply Fin.ext; simp only [toByte]; omega
    have eb : toByte (((a.val * 65536 + b.val * 256 + c.val) / 2 ^ 18 % 64 * 262144 +
      (a.val * 65536 + b.val * 256 + c.val) / 2 ^ 12 % 64 * 4096 +
      (a.val * 65536 + b.val * 256 + c.val) / 2 ^ 6 % 64 * 64 +
      (a.val * 65536 + b.val * 256 + c.val) % 64) / 2 ^ 8) = b := by
      apply Fin.ext; simp only [toByte]; omega
    have ec : toByte ((a.val * 65536 + b.val * 256 + c.val) / 2 ^ 18 % 64 * 262144 +
      (a.val * 65536 + b.val * 256 + c.val) / 2 ^ 12 % 64 * 4096 +
      (a.val * 65536 + b.val * 256 + c.val) / 2 ^ 6 % 64 * 64 +
      (a.val * 65536 + b.val * 256 + c.val) % 64) = c := by
      apply Fin.ext; simp only [toByte]; omega
    simp only [ea, eb, ec]
  | case2 a b =>
    rw [base64Encode]
    simp only [and_63, Nat.shiftRight_eq_div_pow, val2 a.val b.val b.isLt]
    rw [decodeQuanta_two _ _ _ (Nat.mod_lt _ (by decide)) (Nat.mod_lt _ (by decide))
      (Nat.mod_lt _ (by decide))]
    have ha := a.isLt
    have hb := b.isLt
    have ea : toByte (((a.val * 65536 + b.val * 256) / 2 ^ 18 % 64 * 262144 +
      (a.val * 65536 + b.val * 256) / 2 ^ 12 % 64 * 4096 +
      (a.val * 65536 + b.val * 256) / 2 ^ 6 % 64 * 64 + 0) / 2 ^ 16) = a := by
      apply Fin.ext; simp only [toByte]; omega
    have eb : toByte (((a.val * 65536 + b.val * 256) / 2 ^ 18 % 64 * 262144 +
      (a.val * 65536 + b.val * 256) / 2 ^ 12 % 64 * 4096 +
      (a.val * 65536 + b.val * 256) / 2 ^ 6 % 64 * 64 + 0) / 2 ^ 8) = b := by
      apply Fin.ext; simp only [toByte]; omega
    simp only [ea, eb]
  | case3 a =>
    rw [base64Encode]
    simp only [and_63, Nat.shiftRight_eq_div_pow, val1 a.val]
    rw [decodeQuanta_one _ _ (Nat.mod_lt _ (by decide)) (Nat.mod_lt _ (by decide))]
    have ha := a.isLt
    have ea : toByte (((a.val * 65536) / 2 ^ 18 % 64 * 262144 +
      (a.val * 65536) / 2 ^ 12 % 64 * 4096 + 0 * 64 + 0) / 2 ^ 16) = a := by
      apply Fin.ext; simp only [toByte]; omega
    simp only [ea]
  | case4 => rfl

/-! ## Lemmas on the address fingerprint -/

theorem encodeStd32_lower_fin : ∀ i : Fin 32,
    (encodeStd32.getD i.val '=').toLower ∈ lowerBase32 ∧
      (encodeStd32.getD i.val '=').toLower ≠ '=' ∧
      (encodeStd32.getD i.val '=').toLower.isUpper = false := by decide

theorem b32char_lower (b : Nat) :
    (b32char b).toLower ∈ lowerBase32 ∧ (b32char b).toLower ≠ '=' ∧
      (b32char b).toLower.isUpper = false :=
  encodeStd32_lower_fin ⟨b &&& 31, Nat.lt_succ_of_le Nat.and_le_right⟩

theorem base32Encode_ten (l : List Byte) (h : l.length = 10) :
    ∃ bs : List Nat, bs.length = 16 ∧ base32Encode l = bs.map b32char := by
  match l, h with
  | [b0, b1, b2, b3, b4, b5, b6, b7, b8, b9], _ =>
    refine ⟨quantum32 b0.val b1.val b2.val b3.val b4.val ++
      quantum32 b5.val b6.val b7.val b8.val b9.val, rfl, ?_⟩
    simp only [base32Encode, List.map_append, List.append_nil]

section
variable {SK PK ID RSK RPK BP : Type}

theorem onionAddress_data (env : Env SK PK ID RSK RPK BP) (pkbytes : List Byte) :
    ∃ bs : List Nat, bs.length = 16 ∧
      (onionAddress env pkbytes).data = bs.map (fun b => (b32char b).toLower) := by
  have hlen : ((env.sha1Sum pkbytes).val.take ((env.sha1Sum pkbytes).val.length / 2)).length
      = 10 := by
    rw [List.length_take, (env.sha1Sum pkbytes).property]
    rfl
  obtain ⟨bs, hbs, he⟩ := base32Encode_ten _ hlen
  refine ⟨bs, hbs, ?_⟩
  simp only [onionAddress, stringsToLower, base32EncodeToString, he, List.map_map]
  rfl

theorem onionAddress_length (env : Env SK PK ID RSK RPK BP) (pkbytes : List Byte) :
    (onionAddress env pkbytes).length = 16 := by
  obtain ⟨bs, hbs, he⟩ := onionAddress_data env pkbytes
  rw [String.length, he, List.length_map, hbs]

theorem onionAddress_chars (env : Env SK PK ID RSK RPK BP) (pkbytes : List Byte) (c : Char)
    (hc : c ∈ (onionAddress env pkbytes).data) :
    c ∈ lowerBase32 ∧ c ≠ '=' ∧ c.isUpper = false := by
  obtain ⟨bs, _, he⟩ := onionAddress_data env pkbytes
  rw [he, List.mem_map] at hc
  obtain ⟨b, _, rfl⟩ := hc
  exact b32char_lower b

end

/-! ## Lemmas on `identityConfig` and `Init` -/

section
variable {SK PK ID RSK RPK BP : Type}

theorem identityConfig_lt (env : Env SK PK ID RSK RPK BP) (nbits : Int) (tr : List Event)
    (h : nbits < 1024) :
    identityConfig env nbits tr =
      (({ PeerID := "", PrivKey := "" }, some "Bitsize less than 1024 is considered unsafe."),
        tr) := by
  simp only [identityConfig, if_pos h]

theorem identityConfig_success (env : Env SK PK ID RSK RPK BP) (nbits : Int) (tr : List Event)
    (sk : SK) (pk : PK) (skbytes : List Byte) (id : ID)
    (h : 1024 ≤ nbits) (hk : env.GenerateKeyPair nbits = .ok (sk, pk))
    (hb : env.Bytes sk = .ok skbytes) (hi : env.IDFromPublicKey pk = .ok id) :
    identityConfig env nbits tr =
      (({ PeerID := env.Pretty id, PrivKey := base64EncodeToString skbytes }, none),
        tr ++ [.write ("generating " ++ toString nbits ++ "-bit RSA keypair..."),
          .generateKeyPair nbits, .write "done\n",
          .write ("peer identity: " ++ env.Pretty id ++ "\n")]) := by
  have h' : ¬ nbits < 1024 := by omega
  simp only [identityConfig, if_neg h', hk, hb, hi, List.append_assoc]
  rfl

theorem identityConfig_ok_inv (env : Env SK PK ID RSK RPK BP) (nbits : Int) (tr : List Event)
    (ident : Identity) (tr' : List Event)
    (h : identityConfig env nbits tr = ((ident, none), tr')) :
    1024 ≤ nbits ∧ ∃ sk pk skbytes id, env.GenerateKeyPair nbits = .ok (sk, pk) ∧
      env.Bytes sk = .ok skbytes ∧ env.IDFromPublicKey pk = .ok id ∧
      ident = { PeerID := env.Pretty id, PrivKey := base64EncodeToString skbytes } := by
  by_cases hlt : nbits < 1024
  · rw [identityConfig_lt env nbits tr hlt] at h
    simp at h
  · refine ⟨by omega, ?_⟩
    simp only [identityConfig, if_neg hlt] at h
    split at h
    · simp at h
    · rename_i sk pk hk
      split at h
      · simp at h
      · rename_i skbytes hb
        split at h
        · simp at h
        · rename_i id hi
          refine ⟨sk, pk, skbytes, id, hk, hb, hi, ?_⟩
          simp only [Prod.mk.injEq, and_true] at h
          exact h.1.symm

theorem rsaKeygenCalls_append (a b : List Event) :
    rsaKeygenCalls (a ++ b) = rsaKeygenCalls a + rsaKeygenCalls b := by
  induction a with
  | nil => simp [rsaKeygenCalls]
  | cons e a ih =>
    cases e
    · simp [rsaKeygenCalls, ih]
    · simp [rsaKeygenCalls, ih]
    · simp [rsaKeygenCalls, ih]; omega

theorem identityConfig_rsaKeygenCalls (env : Env SK PK ID RSK RPK BP) (nbits : Int)
    (tr : List Event) :
    rsaKeygenCalls (identityConfig env nbits tr).2 = rsaKeygenCalls tr := by
  simp only [identityConfig]
  split
  · rfl
  · split
    · simp [rsaKeygenCalls_append, rsaKeygenCalls]
    · split
      · simp [rsaKeygenCalls_append, rsaKeygenCalls]
      · split <;> simp [rsaKeygenCalls_append, rsaKeygenCalls]

theorem Init_of_identity_error (env : Env SK PK ID RSK RPK BP) (nbits : Int) (tr : List Event)
    (ident : Identity) (err : GoError) (tr1 : List Event)
    (h : identityConfig env nbits tr = ((ident, some err), tr1)) :
    Init env nbits tr = ((none, some err), tr1) := by
  simp only [Init, h]

theorem Init_of_bootstrap_error (env : Env SK PK ID RSK RPK BP) (nbits : Int) (tr : List Event)
    (ident : Identity) (err : GoError) (tr1 : List Event)
    (h : identityConfig env nbits tr = ((ident, none), tr1))
    (hb : env.DefaultBootstrapPeers = .error err) :
    Init env nbits tr = ((none, some err), tr1) := by
  simp only [Init, h, hb]

theorem Init_of_rsa_error (env : Env SK PK ID RSK RPK BP) (nbits : Int) (tr : List Event)
    (ident : Identity) (peers : List BP) (err : GoError) (tr1 : List Event)
    (h : identityConfig env nbits tr = ((ident, none), tr1))
    (hb : env.DefaultBootstrapPeers = .ok peers)
    (hr : env.rsaGenerateKey 1024 = .error err) :
    Init env nbits tr = ((none, some err), tr1 ++ [.rsaGenerateKey 1024]) := by
  simp only [Init, h, hb, hr]

theorem Init_of_success (env : Env SK PK ID RSK RPK BP) (nbits : Int) (tr : List Event)
    (ident : Identity) (peers : List BP) (sk : RSK) (tr1 : List Event)
    (h : identityConfig env nbits tr = ((ident, none), tr1))
    (hb : env.DefaultBootstrapPeers = .ok peers)
    (hr : env.rsaGenerateKey 1024 = .ok sk) :
    Init env nbits tr =
      ((some (confOf ident (env.BootstrapPeerStrings peers) DefaultDatastoreConfig
        (fingerprintOf env sk) (onionPrivateKeyOf env sk)), none),
        tr1 ++ [.rsaGenerateKey 1024]) := by
  simp only [Init, h, hb, hr]
  rfl

theorem Init_ok_inv (env : Env SK PK ID RSK RPK BP) (nbits : Int) (tr : List Event)
    (conf : Config) (tr' : List Event)
    (h : Init env nbits tr = ((some conf, none), tr')) :
    ∃ ident tr1 peers sk, identityConfig env nbits tr = ((ident, none), tr1) ∧
      env.DefaultBootstrapPeers = .ok peers ∧ env.rsaGenerateKey 1024 = .ok sk ∧
      conf = confOf ident (env.BootstrapPeerStrings peers) DefaultDatastoreConfig
        (fingerprintOf env sk) (onionPrivateKeyOf env sk) ∧
      tr' = tr1 ++ [.rsaGenerateKey 1024] := by
  rcases hi : identityConfig env nbits tr with ⟨⟨ident, oerr⟩, tr1⟩
  cases oerr with
  | some err =>
    rw [Init_of_identity_error env nbits tr ident err tr1 hi] at h
    simp at h
  | none =>
    cases hb : env.DefaultBootstrapPeers with
    | error err =>
      rw [Init_of_bootstrap_error env nbits tr ident err tr1 hi hb] at h
      simp at h
    | ok peers =>
      cases hr : env.rsaGenerateKey 1024 with
      | error err =>
        rw [Init_of_rsa_error env nbits tr ident peers err tr1 hi hb hr] at h
        simp at h
      | ok sk =>
        rw [Init_of_success env nbits tr ident peers sk tr1 hi hb hr] at h
        simp only [Prod.mk.injEq, Option.some.injEq, and_true] at h
        exact ⟨ident, tr1, peers, sk, rfl, rfl, rfl, h.1.symm, h.2.symm⟩

end

/-! ## Sample runs evaluated, and lemmas on traces and strings -/

theorem Init_okEnv : Init okEnv 1024 [] = ((some okConf, none), okTrace) := by rfl

theorem Init_okEnv2 : Init okEnv2 2048 [] =
    ((some okConf, none),
      [.write "generating 2048-bit RSA keypair...", .generateKeyPair 2048, .write "done\n",
        .write "peer identity: QmSample\n", .rsaGenerateKey 1024]) := by
  rfl

theorem base64Encode_no_newline (bs : List Byte) :
    ∀ c ∈ base64Encode bs, (c != '\n' && c != '\r') = true := by
  have key : ∀ x : Nat, (b64char (x &&& 0x3F) != '\n' && b64char (x &&& 0x3F) != '\r') = true := by
    intro x
    have hx : x &&& 0x3F < 64 := Nat.lt_succ_of_le Nat.and_le_right
    have := b64char_ne hx
    simp [this.2.1, this.2.2]
  induction bs using base64Encode.induct with
  | case1 a b c rest ih =>
    intro ch hch
    rw [base64Encode] at hch
    simp only [List.mem_cons] at hch
    rcases hch with rfl | rfl | rfl | rfl | hch
    · exact key _
    · exact key _
    · exact key _
    · exact key _
    · exact ih ch hch
  | case2 a b =>
    intro ch hch
    rw [base64Encode] at hch
    simp only [List.mem_cons, List.not_mem_nil, or_false] at hch
    rcases hch with rfl | rfl | rfl | rfl
    · exact key _
    · exact key _
    · exact key _
    · decide
  | case3 a =>
    intro ch hch
    rw [base64Encode] at hch
    simp only [List.mem_cons, List.not_mem_nil, or_false] at hch
    rcases hch with rfl | rfl | rfl | rfl
    · exact key _
    · exact key _
    · decide
    · decide
  | case4 => intro ch hch; simp [base64Encode] at hch

theorem base64DecodeString_encode (bs : List Byte) :
    base64DecodeString (base64EncodeToString bs) = .ok bs := by
  rw [base64DecodeString, base64EncodeToString]
  rw [List.filter_eq_self.2 (base64Encode_no_newline bs)]
  exact decodeQuanta_base64Encode bs

theorem data_take_append (a b : String) (n : Nat) (h : a.length = n) :
    String.mk ((a ++ b).data.take n) = a := by
  have : (a ++ b).data = a.data ++ b.data := String.data_append a b
  rw [this, ← h, String.length, List.take_left']
  rfl

theorem data_drop_append (a b : String) (n : Nat) (h : a.length = n) :
    String.mk ((a ++ b).data.drop n) = b := by
  have : (a ++ b).data = a.data ++ b.data := String.data_append a b
  rw [this, ← h, String.length, List.drop_left']
  rfl


theorem written_append (a b : List Event) : written (a ++ b) = written a ++ written b := by
  induction a with
  | nil => rfl
  | cons e a ih => cases e <;> simp [written, ih]

theorem keygenCalls_append (a b : List Event) :
    keygenCalls (a ++ b) = keygenCalls a + keygenCalls b := by
  induction a with
  | nil => simp [keygenCalls]
  | cons e a ih =>
    cases e
    · simp [keygenCalls, ih]
    · simp [keygenCalls, ih]; omega
    · simp [keygenCalls, ih]

theorem identityConfig_keygenFailEnv :
    identityConfig keygenFailEnv 1024 [] =
      (({ PeerID := "", PrivKey := "" }, some "keygen failed"),
        [.write "generating 1024-bit RSA keypair...", .generateKeyPair 1024]) := by
  rfl

/-! ## The claims -/

section Claims
variable {SK PK ID RSK RPK BP : Type}

/-- C1: for every bit-strength `nbits < 1024` and every state of the output
sink, `identityConfig` fails with the error "Bitsize less than 1024 is
considered unsafe.", returns the zero-valued identity and leaves the trace as
it was: no call of the key generator is made and nothing is written, so the
strength check comes before any key generation or progress output. -/
theorem identityConfig_rejects_weak_strength (env : Env SK PK ID RSK RPK BP) (nbits : Int)
    (tr : List Event) (h : nbits < 1024) :
    (identityConfig env nbits tr).1 =
        ({ PeerID := "", PrivKey := "" }, some "Bitsize less than 1024 is considered unsafe.") ∧
      (identityConfig env nbits tr).2 = tr ∧
      keygenCalls (identityConfig env nbits tr).2 = keygenCalls tr ∧
      written (identityConfig env nbits tr).2 = written tr := by
  rw [identityConfig_lt env nbits tr h]
  exact ⟨rfl, rfl, rfl, rfl⟩

/-- Witness for C1: bit-strength 512 on an empty trace. -/
theorem identityConfig_rejects_weak_strength_witness :
    (512 : Int) < 1024 ∧
      (identityConfig okEnv 512 []).1 =
        ({ PeerID := "", PrivKey := "" }, some "Bitsize less than 1024 is considered unsafe.") ∧
      (identityConfig okEnv 512 []).2 = [] ∧
      keygenCalls (identityConfig okEnv 512 []).2 = keygenCalls [] ∧
      written (identityConfig okEnv 512 []).2 = written [] :=
  ⟨by decide, identityConfig_rejects_weak_strength okEnv 512 [] (by decide)⟩

/-- C2: for every serialized public key, the address fingerprint of `Init`
(the lowercase base-32 text of the first half of the 20-byte SHA-1 digest) has
exactly 16 characters, which is 10 bytes at 5 bits a character, contains no
`=` padding and no uppercase letter, and every character is one of `a` to `z`,
`2` to `7`. -/
theorem onionAddress_sixteen_lower_base32 (env : Env SK PK ID RSK RPK BP)
    (pkbytes : List Byte) :
    (onionAddress env pkbytes).length = 16 ∧
      (onionAddress env pkbytes).length * 5 = 10 * 8 ∧
      '=' ∉ (onionAddress env pkbytes).data ∧
      ∀ c ∈ (onionAddress env pkbytes).data, c.isUpper = false ∧ c ∈ lowerBase32 := by
  refine ⟨onionAddress_length env pkbytes, ?_, ?_, ?_⟩
  · rw [onionAddress_length env pkbytes]
  · intro hmem
    exact (onionAddress_chars env pkbytes _ hmem).2.1 rfl
  · intro c hc
    exact ⟨(onionAddress_chars env pkbytes c hc).2.2, (onionAddress_chars env pkbytes c hc).1⟩

/-- C3: a failure of the key-generation or encoding step of the second
keypair comes back as an error of `Init`. `asn1.Marshal` reports no error on
the public key of a key that `rsa.GenerateKey` returned (hypothesis `hM`, the
behaviour of the library on an `rsa.PublicKey`), so in every run in which
generating the second keypair fails or serializing its public key fails, it is
the key generation that failed: `Init` returns an error and no record, and when
`identityConfig` and `DefaultBootstrapPeers` have succeeded the error returned
is the one of the key generation. -/
theorem Init_second_keypair_failure_propagates (env : Env SK PK ID RSK RPK BP) (nbits : Int)
    (tr : List Event)
    (hM : ∀ sk, env.rsaGenerateKey 1024 = .ok sk →
      (env.asn1Marshal (env.PublicKey sk)).2 = none)
    (hfail : (∃ err, env.rsaGenerateKey 1024 = .error err) ∨
      (∃ sk err, env.rsaGenerateKey 1024 = .ok sk ∧
        (env.asn1Marshal (env.PublicKey sk)).2 = some err)) :
    (∃ err, (Init env nbits tr).1 = (none, some err)) ∧
      (∀ ident tr1 peers, identityConfig env nbits tr = ((ident, none), tr1) →
        env.DefaultBootstrapPeers = .ok peers →
        ∃ err, env.rsaGenerateKey 1024 = .error err ∧
          Init env nbits tr = ((none, some err), tr1 ++ [.rsaGenerateKey 1024])) := by
  have hgen : ∃ err, env.rsaGenerateKey 1024 = .error err := by
    rcases hfail with hgen | ⟨sk, err, hsk, herr⟩
    · exact hgen
    · rw [hM sk hsk] at herr
      cases herr
  obtain ⟨err, hr⟩ := hgen
  constructor
  · rcases hi : identityConfig env nbits tr with ⟨⟨ident, oerr⟩, tr1⟩
    cases oerr with
    | some e => exact ⟨e, by rw [Init_of_identity_error env nbits tr ident e tr1 hi]⟩
    | none =>
      cases hb : env.DefaultBootstrapPeers with
      | error e => exact ⟨e, by rw [Init_of_bootstrap_error env nbits tr ident e tr1 hi hb]⟩
      | ok peers =>
        exact ⟨err, by rw [Init_of_rsa_error env nbits tr ident peers err tr1 hi hb hr]⟩
  · intro ident tr1 peers hi hb
    exact ⟨err, hr, Init_of_rsa_error env nbits tr ident peers err tr1 hi hb hr⟩

/-- Witness for C3: the run `rsaFailEnv`, in which `rsa.GenerateKey` fails. -/
theorem Init_second_keypair_failure_propagates_witness :
    rsaFailEnv.rsaGenerateKey 1024 = .error "rsa: key generation failed" ∧
      (∃ err, (Init rsaFailEnv 1024 []).1 = (none, some err)) ∧
      (∀ ident tr1 peers, identityConfig rsaFailEnv 1024 [] = ((ident, none), tr1) →
        rsaFailEnv.DefaultBootstrapPeers = .ok peers →
        ∃ err, rsaFailEnv.rsaGenerateKey 1024 = .error err ∧
          Init rsaFailEnv 1024 [] = ((none, some err), tr1 ++ [.rsaGenerateKey 1024])) :=
  ⟨rfl, Init_second_keypair_failure_propagates rsaFailEnv 1024 [] (fun _ _ => rfl)
    (Or.inl ⟨"rsa: key generation failed", rfl⟩)⟩

/-- C4: in every successful run of `Init` the bit-strength is at least 1024
and `Addresses.Swarm` has exactly three entries, in this order: `/onion/`
followed by the address fingerprint followed by `:4003`, then
`/ip4/0.0.0.0/tcp/4001`, then `/ip6/::/tcp/4001`; the fingerprint has 16, so at
least 10, characters, all of them lowercase base-32 characters. -/
theorem Init_swarm_addresses (env : Env SK PK ID RSK RPK BP) (nbits : Int) (tr : List Event)
    (conf : Config) (tr' : List Event)
    (h : Init env nbits tr = ((some conf, none), tr')) :
    1024 ≤ nbits ∧ ∃ sk, env.rsaGenerateKey 1024 = .ok sk ∧
      conf.Addresses.Swarm =
        ["/onion/" ++ fingerprintOf env sk ++ ":4003", "/ip4/0.0.0.0/tcp/4001",
          "/ip6/::/tcp/4001"] ∧
      conf.Addresses.Swarm.length = 3 ∧
      10 ≤ (fingerprintOf env sk).length ∧
      ∀ c ∈ (fingerprintOf env sk).data, c ∈ lowerBase32 := by
  obtain ⟨ident, tr1, peers, sk, hi, _, hr, hc, _⟩ := Init_ok_inv env nbits tr conf tr' h
  refine ⟨(identityConfig_ok_inv env nbits tr ident tr1 hi).1, sk, hr, ?_, ?_, ?_, ?_⟩
  · rw [hc]; rfl
  · rw [hc]; rfl
  · rw [fingerprintOf, onionAddress_length]; decide
  · intro c hcm
    exact (onionAddress_chars env _ c hcm).1

/-- Witness for C4: the run `okEnv` with bit-strength 1024. -/
theorem Init_swarm_addresses_witness :
    Init okEnv 1024 [] = ((some okConf, none), okTrace) ∧
      okConf.Addresses.Swarm =
        ["/onion/vov2xk5lvov2xk5l:4003", "/ip4/0.0.0.0/tcp/4001", "/ip6/::/tcp/4001"] ∧
      ((1024 : Int) ≤ 1024 ∧ ∃ sk, okEnv.rsaGenerateKey 1024 = .ok sk ∧
        okConf.Addresses.Swarm =
          ["/onion/" ++ fingerprintOf okEnv sk ++ ":4003", "/ip4/0.0.0.0/tcp/4001",
            "/ip6/::/tcp/4001"] ∧
        okConf.Addresses.Swarm.length = 3 ∧
        10 ≤ (fingerprintOf okEnv sk).length ∧
        ∀ c ∈ (fingerprintOf okEnv sk).data, c ∈ lowerBase32) :=
  ⟨Init_okEnv, rfl, Init_swarm_addresses okEnv 1024 [] okConf okTrace Init_okEnv⟩

/-- C5: in every successful run of `Init`, `OnionKeys` is the address
fingerprint followed directly, with no separator, by the padded
standard-alphabet base-64 encoding of the serialized private key of the second
keypair, and that fingerprint is the one embedded in `Addresses.Swarm[0]`. -/
theorem Init_onionKeys_concat (env : Env SK PK ID RSK RPK BP) (nbits : Int) (tr : List Event)
    (conf : Config) (tr' : List Event)
    (h : Init env nbits tr = ((some conf, none), tr')) :
    ∃ sk, env.rsaGenerateKey 1024 = .ok sk ∧
      conf.OnionKeys =
        fingerprintOf env sk ++ base64EncodeToString (env.MarshalPKCS1PrivateKey sk) ∧
      conf.Addresses.Swarm.head? = some ("/onion/" ++ fingerprintOf env sk ++ ":4003") := by
  obtain ⟨ident, tr1, peers, sk, _, _, hr, hc, _⟩ := Init_ok_inv env nbits tr conf tr' h
  refine ⟨sk, hr, ?_, ?_⟩
  · rw [hc]; rfl
  · rw [hc]; rfl

/-- Witness for C5: the run `okEnv` with bit-strength 1024. -/
theorem Init_onionKeys_concat_witness :
    Init okEnv 1024 [] = ((some okConf, none), okTrace) ∧
      okConf.OnionKeys = "vov2xk5lvov2xk5lBQYHCAk=" ∧
      ∃ sk, okEnv.rsaGenerateKey 1024 = .ok sk ∧
        okConf.OnionKeys =
          fingerprintOf okEnv sk ++ base64EncodeToString (okEnv.MarshalPKCS1PrivateKey sk) ∧
        okConf.Addresses.Swarm.head? = some ("/onion/" ++ fingerprintOf okEnv sk ++ ":4003") :=
  ⟨Init_okEnv, rfl, Init_onionKeys_concat okEnv 1024 [] okConf okTrace Init_okEnv⟩


/-- C6: `Init` is all-or-nothing. Every run returns either a record and no
error or no record and an error. A bit-strength below 1024 gives the error of
`identityConfig`; any error of `identityConfig` is returned as it is, with no
record, and the second keypair is then never generated; an error of
`DefaultBootstrapPeers` and an error of the second key generation are returned
as they are, with no record. -/
theorem Init_all_or_nothing (env : Env SK PK ID RSK RPK BP) (nbits : Int) (tr : List Event) :
    ((∃ conf, (Init env nbits tr).1 = (some conf, none)) ∨
        (∃ err, (Init env nbits tr).1 = (none, some err))) ∧
      (nbits < 1024 →
        Init env nbits tr =
          ((none, some "Bitsize less than 1024 is considered unsafe."), tr)) ∧
      (∀ ident err tr1, identityConfig env nbits tr = ((ident, some err), tr1) →
        Init env nbits tr = ((none, some err), tr1) ∧
          rsaKeygenCalls (Init env nbits tr).2 = rsaKeygenCalls tr) ∧
      (∀ ident tr1 err, identityConfig env nbits tr = ((ident, none), tr1) →
        env.DefaultBootstrapPeers = .error err →
        Init env nbits tr = ((none, some err), tr1)) ∧
      (∀ ident tr1 peers err, identityConfig env nbits tr = ((ident, none), tr1) →
        env.DefaultBootstrapPeers = .ok peers → env.rsaGenerateKey 1024 = .error err →
        (Init env nbits tr).1 = (none, some err)) := by
  refine ⟨?_, ?_, ?_, ?_, ?_⟩
  · rcases hi : identityConfig env nbits tr with ⟨⟨ident, oerr⟩, tr1⟩
    cases oerr with
    | some err =>
      exact Or.inr ⟨err, by rw [Init_of_identity_error env nbits tr ident err tr1 hi]⟩
    | none =>
      cases hb : env.DefaultBootstrapPeers with
      | error err =>
        exact Or.inr ⟨err, by rw [Init_of_bootstrap_error env nbits tr ident err tr1 hi hb]⟩
      | ok peers =>
        cases hr : env.rsaGenerateKey 1024 with
        | error err =>
          exact Or.inr ⟨err, by rw [Init_of_rsa_error env nbits tr ident peers err tr1 hi hb hr]⟩
        | ok sk =>
          exact Or.inl ⟨_, by rw [Init_of_success env nbits tr ident peers sk tr1 hi hb hr]⟩
  · intro hlt
    exact Init_of_identity_error env nbits tr _ _ tr (identityConfig_lt env nbits tr hlt)
  · intro ident err tr1 hi
    have hcalls := identityConfig_rsaKeygenCalls env nbits tr
    rw [hi] at hcalls
    rw [Init_of_identity_error env nbits tr ident err tr1 hi]
    exact ⟨rfl, hcalls⟩
  · intro ident tr1 err hi hb
    exact Init_of_bootstrap_error env nbits tr ident err tr1 hi hb
  · intro ident tr1 peers err hi hb hr
    rw [Init_of_rsa_error env nbits tr ident peers err tr1 hi hb hr]

/-- Witness for C6: a run with bit-strength 512, a run whose identity key
generation fails, a run whose bootstrap list fails and a run whose second key
generation fails. -/
theorem Init_all_or_nothing_witness :
    Init okEnv 512 [] = ((none, some "Bitsize less than 1024 is considered unsafe."), []) ∧
      (Init keygenFailEnv 1024 [] =
          ((none, some "keygen failed"),
            [.write "generating 1024-bit RSA keypair...", .generateKeyPair 1024]) ∧
        rsaKeygenCalls (Init keygenFailEnv 1024 []).2 = rsaKeygenCalls []) ∧
      Init bootstrapFailEnv 1024 [] =
        ((none, some "failed to parse bootstrap peers"), okTrace.take 4) ∧
      (Init rsaFailEnv 1024 []).1 = (none, some "rsa: key generation failed") :=
  ⟨(Init_all_or_nothing okEnv 512 []).2.1 (by decide),
    (Init_all_or_nothing keygenFailEnv 1024 []).2.2.1 _ _ _ identityConfig_keygenFailEnv,
    (Init_all_or_nothing bootstrapFailEnv 1024 []).2.2.2.1 okIdentity (okTrace.take 4) _ rfl rfl,
    (Init_all_or_nothing rsaFailEnv 1024 []).2.2.2.2 okIdentity (okTrace.take 4)
      ["/ip4/104.131.131.82/tcp/4001/ipfs/QmSample"] _ rfl rfl rfl⟩

/-- C7: for every bit-strength `nbits ≥ 1024` for which key generation,
private-key serialization and peer-identifier derivation succeed,
`identityConfig` returns no error and the identity of the one generated keypair:
`PrivKey` is the padded standard-alphabet base-64 encoding of the serialized
private key, `PeerID` is the printable form of the identifier of the public key.
The key generator is called exactly once, and what is written to the output
sink is the start message with the bit count, `done`, and the line
`peer identity: ` followed by the returned `PeerID`. -/
theorem identityConfig_derives_identity (env : Env SK PK ID RSK RPK BP) (nbits : Int)
    (tr : List Event) (sk : SK) (pk : PK) (skbytes : List Byte) (id : ID)
    (h : 1024 ≤ nbits) (hk : env.GenerateKeyPair nbits = .ok (sk, pk))
    (hb : env.Bytes sk = .ok skbytes) (hi : env.IDFromPublicKey pk = .ok id) :
    (identityConfig env nbits tr).1 =
        ({ PeerID := env.Pretty id, PrivKey := base64EncodeToString skbytes }, none) ∧
      keygenCalls (identityConfig env nbits tr).2 = keygenCalls tr + 1 ∧
      written (identityConfig env nbits tr).2 =
        written tr ++ ["generating " ++ toString nbits ++ "-bit RSA keypair...", "done\n",
          "peer identity: " ++ (identityConfig env nbits tr).1.1.PeerID ++ "\n"] := by
  rw [identityConfig_success env nbits tr sk pk skbytes id h hk hb hi]
  refine ⟨rfl, ?_, ?_⟩
  · rw [keygenCalls_append]; rfl
  · rw [written_append]; rfl

/-- Witness for C7: the run `okEnv` with bit-strength exactly 1024. -/
theorem identityConfig_derives_identity_witness :
    (identityConfig okEnv 1024 []).1 =
        ({ PeerID := okEnv.Pretty 12,
           PrivKey := base64EncodeToString [toByte 1, toByte 2, toByte 3, toByte 4] }, none) ∧
      keygenCalls (identityConfig okEnv 1024 []).2 = keygenCalls [] + 1 ∧
      written (identityConfig okEnv 1024 []).2 =
        written [] ++ ["generating " ++ toString (1024 : Int) ++ "-bit RSA keypair...", "done\n",
          "peer identity: " ++ (identityConfig okEnv 1024 []).1.1.PeerID ++ "\n"] :=
  identityConfig_derives_identity okEnv 1024 [] 11 12 [toByte 1, toByte 2, toByte 3, toByte 4] 12
    (by decide) rfl rfl rfl

/-- C8: the stored private keys are reversible text. Decoding the padded
standard-alphabet base-64 encoding of any byte sequence gives the bytes back;
so in every successful run of `Init`, decoding `Identity.PrivKey` gives the
serialized private key of the identity keypair, and decoding `OnionKeys` after
its first 16 characters gives the serialized private key of the second
keypair. -/
theorem privKey_base64_reversible (env : Env SK PK ID RSK RPK BP) (nbits : Int)
    (tr : List Event) (conf : Config) (tr' : List Event)
    (h : Init env nbits tr = ((some conf, none), tr')) :
    (∀ bs : List Byte, base64DecodeString (base64EncodeToString bs) = .ok bs) ∧
      (∃ sk pk skbytes, env.GenerateKeyPair nbits = .ok (sk, pk) ∧
        env.Bytes sk = .ok skbytes ∧
        conf.Identity.PrivKey = base64EncodeToString skbytes ∧
        base64DecodeString conf.Identity.PrivKey = .ok skbytes) ∧
      (∃ rsk, env.rsaGenerateKey 1024 = .ok rsk ∧
        base64DecodeString (String.mk (conf.OnionKeys.data.drop 16)) =
          .ok (env.MarshalPKCS1PrivateKey rsk)) := by
  obtain ⟨ident, tr1, peers, rsk, hi, _, hr, hc, _⟩ := Init_ok_inv env nbits tr conf tr' h
  obtain ⟨_, sk, pk, skbytes, id, hk, hb, _, hid⟩ := identityConfig_ok_inv env nbits tr ident tr1 hi
  refine ⟨base64DecodeString_encode, ⟨sk, pk, skbytes, hk, hb, ?_, ?_⟩, ⟨rsk, hr, ?_⟩⟩
  · rw [hc, hid]; rfl
  · rw [hc, hid]; exact base64DecodeString_encode skbytes
  · have hk16 : conf.OnionKeys = fingerprintOf env rsk ++ onionPrivateKeyOf env rsk := by
      rw [hc]; rfl
    rw [hk16, data_drop_append (fingerprintOf env rsk) _ 16 (onionAddress_length env _)]
    exact base64DecodeString_encode _

/-- Witness for C8: the run `okEnv`, whose serialized private keys have 4 and
5 bytes. -/
theorem privKey_base64_reversible_witness :
    base64DecodeString okConf.Identity.PrivKey =
        .ok [toByte 1, toByte 2, toByte 3, toByte 4] ∧
      base64DecodeString (String.mk (okConf.OnionKeys.data.drop 16)) =
        .ok [toByte 5, toByte 6, toByte 7, toByte 8, toByte 9] ∧
      ((∀ bs : List Byte, base64DecodeString (base64EncodeToString bs) = .ok bs) ∧
        (∃ sk pk skbytes, okEnv.GenerateKeyPair 1024 = .ok (sk, pk) ∧
          okEnv.Bytes sk = .ok skbytes ∧
          okConf.Identity.PrivKey = base64EncodeToString skbytes ∧
          base64DecodeString okConf.Identity.PrivKey = .ok skbytes) ∧
        (∃ rsk, okEnv.rsaGenerateKey 1024 = .ok rsk ∧
          base64DecodeString (String.mk (okConf.OnionKeys.data.drop 16)) =
            .ok (okEnv.MarshalPKCS1PrivateKey rsk))) :=
  ⟨rfl, rfl, privKey_base64_reversible okEnv 1024 [] okConf okTrace Init_okEnv⟩


/-- C9: the record is a function of its inputs, and its static defaults are
the documented literals. In every successful run of `Init` the record is
`confOf` applied to the identity, the bootstrap strings, the default datastore,
the address fingerprint and the encoded second private key; hence a second
successful run with the same identity, fingerprint, encoded second private key
and bootstrap list yields the same record. `Datastore` is
`DefaultDatastoreConfig()`: `StorageMax` "10GB", `StorageGCWatermark` 90,
`GCPeriod` "1h", `BloomFilterSize` 0 and a mount spec with exactly two mounts,
both of type "measure", with distinct prefixes and distinct mountpoints.
`Swarm.ConnMgr` has `LowWater` 600, `HighWater` 900, `GracePeriod` "20s" and
`Type` "basic". -/
theorem Init_record_pure_with_defaults (env1 env2 : Env SK PK ID RSK RPK BP) (n1 n2 : Int)
    (t1 t2 : List Event) (conf1 conf2 : Config) (t1' t2' : List Event)
    (h1 : Init env1 n1 t1 = ((some conf1, none), t1'))
    (h2 : Init env2 n2 t2 = ((some conf2, none), t2')) :
    (∃ peers1 sk1, env1.DefaultBootstrapPeers = .ok peers1 ∧
      env1.rsaGenerateKey 1024 = .ok sk1 ∧
      conf1 = confOf conf1.Identity (env1.BootstrapPeerStrings peers1) DefaultDatastoreConfig
        (fingerprintOf env1 sk1) (onionPrivateKeyOf env1 sk1) ∧
      ∀ peers2 sk2, env2.DefaultBootstrapPeers = .ok peers2 →
        env2.rsaGenerateKey 1024 = .ok sk2 →
        conf1.Identity = conf2.Identity →
        fingerprintOf env1 sk1 = fingerprintOf env2 sk2 →
        onionPrivateKeyOf env1 sk1 = onionPrivateKeyOf env2 sk2 →
        env1.BootstrapPeerStrings peers1 = env2.BootstrapPeerStrings peers2 →
        conf1 = conf2) ∧
      conf1.Datastore = DefaultDatastoreConfig ∧
      conf1.Datastore.StorageMax = "10GB" ∧
      conf1.Datastore.StorageGCWatermark = 90 ∧
      conf1.Datastore.GCPeriod = "1h" ∧
      conf1.Datastore.BloomFilterSize = 0 ∧
      strField "type" conf1.Datastore.Spec = some "mount" ∧
      (mountsOf conf1.Datastore).length = 2 ∧
      (mountsOf conf1.Datastore).map (strField "type") = [some "measure", some "measure"] ∧
      (mountsOf conf1.Datastore).map (strField "prefix") =
        [some "flatfs.datastore", some "leveldb.datastore"] ∧
      ((mountsOf conf1.Datastore).map (strField "prefix")).Nodup ∧
      (mountsOf conf1.Datastore).map (strField "mountpoint") = [some "/blocks", some "/"] ∧
      ((mountsOf conf1.Datastore).map (strField "mountpoint")).Nodup ∧
      conf1.Swarm.ConnMgr =
        { LowWater := 600, HighWater := 900, GracePeriod := "20s", Type_ := "basic" } ∧
      conf1.Swarm.ConnMgr.LowWater < conf1.Swarm.ConnMgr.HighWater := by
  obtain ⟨ident1, u1, peers1, sk1, _, hb1, hr1, hc1, _⟩ := Init_ok_inv env1 n1 t1 conf1 t1' h1
  obtain ⟨ident2, u2, peers2, sk2, _, hb2, hr2, hc2, _⟩ := Init_ok_inv env2 n2 t2 conf2 t2' h2
  have hds : conf1.Datastore = DefaultDatastoreConfig := by rw [hc1]; rfl
  have hcm : conf1.Swarm.ConnMgr =
      { LowWater := 600, HighWater := 900, GracePeriod := "20s", Type_ := "basic" } := by
    rw [hc1]; rfl
  have hid1 : conf1.Identity = ident1 := by rw [hc1]; rfl
  have hid2 : conf2.Identity = ident2 := by rw [hc2]; rfl
  refine ⟨⟨peers1, sk1, hb1, hr1, ?_, ?_⟩, hds, ?_⟩
  · rw [hid1]; exact hc1
  · intro p2 s2 hb hr hI hF hK hB
    rw [hb2] at hb
    rw [hr2] at hr
    cases hb
    cases hr
    rw [hid1, hid2] at hI
    rw [hc1, hc2, hI, hF, hK, hB]
  · rw [hds, hcm]
    exact ⟨rfl, rfl, rfl, rfl, rfl, rfl, rfl, rfl, by decide, rfl, by decide, rfl, by decide⟩

/-- Witness for C9: the runs `okEnv` and `okEnv2`, which differ in the keys, in
the bit-strength and in the public-key encoding and agree on every input of the
record. -/
theorem Init_record_pure_with_defaults_witness :
    Init okEnv 1024 [] = ((some okConf, none), okTrace) ∧
      (Init okEnv2 2048 []).1 = (some okConf, none) ∧
      okConf.Datastore.StorageGCWatermark = 90 ∧
      okConf.Swarm.ConnMgr.HighWater = 900 ∧
      okConf.Swarm.ConnMgr.GracePeriod = "20s" :=
  ⟨Init_okEnv, by rw [Init_okEnv2],
    (Init_record_pure_with_defaults okEnv okEnv2 1024 2048 [] [] okConf okConf okTrace _
      Init_okEnv Init_okEnv2).2.2.2.1,
    rfl, rfl⟩

/-- C10: `OnionKeys` decodes unambiguously although it has no delimiter and no
length field. In every successful run of `Init` the first 16 characters of
`OnionKeys` are the address fingerprint and the remaining characters are the
base-64 encoding of the serialized private key of the second keypair; hence two
runs with equal `OnionKeys` have equal fingerprints and equal encoded private
keys. -/
theorem OnionKeys_split_at_sixteen (env1 env2 : Env SK PK ID RSK RPK BP) (n1 n2 : Int)
    (t1 t2 : List Event) (conf1 conf2 : Config) (t1' t2' : List Event)
    (h1 : Init env1 n1 t1 = ((some conf1, none), t1'))
    (h2 : Init env2 n2 t2 = ((some conf2, none), t2')) :
    ∃ sk1 sk2, env1.rsaGenerateKey 1024 = .ok sk1 ∧ env2.rsaGenerateKey 1024 = .ok sk2 ∧
      String.mk (conf1.OnionKeys.data.take 16) = fingerprintOf env1 sk1 ∧
      String.mk (conf1.OnionKeys.data.drop 16) =
        base64EncodeToString (env1.MarshalPKCS1PrivateKey sk1) ∧
      (conf1.OnionKeys = conf2.OnionKeys →
        fingerprintOf env1 sk1 = fingerprintOf env2 sk2 ∧
          base64EncodeToString (env1.MarshalPKCS1PrivateKey sk1) =
            base64EncodeToString (env2.MarshalPKCS1PrivateKey sk2)) := by
  obtain ⟨ident1, u1, peers1, sk1, _, _, hr1, hc1, _⟩ := Init_ok_inv env1 n1 t1 conf1 t1' h1
  obtain ⟨ident2, u2, peers2, sk2, _, _, hr2, hc2, _⟩ := Init_ok_inv env2 n2 t2 conf2 t2' h2
  have hk1 : conf1.OnionKeys = fingerprintOf env1 sk1 ++
      base64EncodeToString (env1.MarshalPKCS1PrivateKey sk1) := by rw [hc1]; rfl
  have hk2 : conf2.OnionKeys = fingerprintOf env2 sk2 ++
      base64EncodeToString (env2.MarshalPKCS1PrivateKey sk2) := by rw [hc2]; rfl
  have hl1 : (fingerprintOf env1 sk1).length = 16 := onionAddress_length env1 _
  have hl2 : (fingerprintOf env2 sk2).length = 16 := onionAddress_length env2 _
  have ht1 := data_take_append (fingerprintOf env1 sk1)
    (base64EncodeToString (env1.MarshalPKCS1PrivateKey sk1)) 16 hl1
  have hd1 := data_drop_append (fingerprintOf env1 sk1)
    (base64EncodeToString (env1.MarshalPKCS1PrivateKey sk1)) 16 hl1
  have ht2 := data_take_append (fingerprintOf env2 sk2)
    (base64EncodeToString (env2.MarshalPKCS1PrivateKey sk2)) 16 hl2
  have hd2 := data_drop_append (fingerprintOf env2 sk2)
    (base64EncodeToString (env2.MarshalPKCS1PrivateKey sk2)) 16 hl2
  refine ⟨sk1, sk2, hr1, hr2, ?_, ?_, ?_⟩
  · rw [hk1]; exact ht1
  · rw [hk1]; exact hd1
  · intro heq
    rw [hk1, hk2] at heq
    constructor
    · rw [← ht1, ← ht2, heq]
    · rw [← hd1, ← hd2, heq]

/-- Witness for C10: the runs `okEnv` and `okEnv2`. -/
theorem OnionKeys_split_at_sixteen_witness :
    Init okEnv 1024 [] = ((some okConf, none), okTrace) ∧
      String.mk (okConf.OnionKeys.data.take 16) = "vov2xk5lvov2xk5l" ∧
      String.mk (okConf.OnionKeys.data.drop 16) = "BQYHCAk=" ∧
      ∃ sk1 sk2, okEnv.rsaGenerateKey 1024 = .ok sk1 ∧
        okEnv2.rsaGenerateKey 1024 = .ok sk2 ∧
        String.mk (okConf.OnionKeys.data.take 16) = fingerprintOf okEnv sk1 ∧
        String.mk (okConf.OnionKeys.data.drop 16) =
          base64EncodeToString (okEnv.MarshalPKCS1PrivateKey sk1) ∧
        (okConf.OnionKeys = okConf.OnionKeys →
          fingerprintOf okEnv sk1 = fingerprintOf okEnv2 sk2 ∧
            base64EncodeToString (okEnv.MarshalPKCS1PrivateKey sk1) =
              base64EncodeToString (okEnv2.MarshalPKCS1PrivateKey sk2)) :=
  ⟨Init_okEnv, rfl, rfl,
    OnionKeys_split_at_sixteen okEnv okEnv2 1024 2048 [] [] okConf okConf okTrace _
      Init_okEnv Init_okEnv2⟩

end Claims

end IpfsConfig
